import Mathlib

/-!
Verification of the market-bot pipeline's specification against a shallow
embedding of its Python source (`app/data_fetcher.py`, `app/summarizer.py`,
`app/runner.py`).

Modelling conventions:
* Python numbers are modelled as rationals (`Rat`); the source only adds,
  subtracts, multiplies, divides and formats them, so rational arithmetic is
  a faithful exact model of the intended real-number computations.
* A Python value that may be `None` is an `Option`.  The quote dictionaries
  produced by `fetch_index_daily` always carry the keys `symbol`, `close`
  and `prev_close` (possibly with value `None`) and never carry `high`,
  `low`; a field that is `none` models both a missing key (for the
  `d.get(...)` accesses) and a `None` value.
* Code that can raise inside a `try` block is modelled with `Except Unit`;
  the enclosing handler turns `.error` into the fallback result.
* External collaborators (the market-data provider, the generative-text
  service) are modelled by universally quantified parameters describing the
  outcome of the single call the source makes to them.
-/

namespace MarketBot

set_option maxRecDepth 8192

/-- Boolean test that `pat` is a prefix of a character list. -/
def charsHavePre : List Char → List Char → Bool
  | [], _ => true
  | _ :: _, [] => false
  | a :: as, b :: bs => a == b && charsHavePre as bs

/-- Boolean test that `pat` occurs contiguously inside a character list. -/
def charsHaveSub (pat : List Char) : List Char → Bool
  | [] => pat.isEmpty
  | c :: rest => charsHavePre pat (c :: rest) || charsHaveSub pat rest

/-- `strContains s pat` holds when `pat` occurs verbatim as a substring of
`s` (the model of Python's `pat in s`). -/
def strContains (s pat : String) : Bool :=
  charsHaveSub pat.data s.data

theorem charsHavePre_append (p t : List Char) :
    charsHavePre p (p ++ t) = true := by
  induction p with
  | nil => rfl
  | cons a as ih => simp [charsHavePre, ih]

theorem charsHaveSub_nil (s : List Char) : charsHaveSub [] s = true := by
  cases s with
  | nil => rfl
  | cons c rest => simp [charsHaveSub, charsHavePre]

theorem charsHaveSub_append_mid (a p b : List Char) :
    charsHaveSub p (a ++ (p ++ b)) = true := by
  induction a with
  | nil =>
    cases p with
    | nil => simpa using charsHaveSub_nil b
    | cons x xs =>
      simp only [List.nil_append, List.cons_append, charsHaveSub]
      have h := charsHavePre_append (x :: xs) b
      simp only [List.cons_append] at h
      simp [h]
  | cons x a2 ih => simp [charsHaveSub, ih]

theorem str_data_append (a b : String) : (a ++ b).data = a.data ++ b.data := by
  cases a
  cases b
  rfl

theorem str_append_assoc (a b c : String) : a ++ b ++ c = a ++ (b ++ c) := by
  cases a
  cases b
  cases c
  simp [String.congr_append, str_data_append]

theorem str_eq_empty_iff (s : String) : s = "" ↔ s.data = [] := by
  constructor
  · intro h
    rw [h]
  · intro h
    cases s with
    | mk d =>
      simp only at h
      rw [h]

/-- If a string literally decomposes as `pre ++ pat ++ post` then it
contains `pat` as a substring. -/
theorem strContains_of_parts (s pre pat post : String)
    (hs : s = pre ++ pat ++ post) : strContains s pat = true := by
  subst hs
  simp only [strContains, str_data_append, List.append_assoc]
  exact charsHaveSub_append_mid pre.data pat.data post.data

theorem str_append_empty (s : String) : s ++ "" = s := by
  cases s with
  | mk d => simp [String.congr_append]

/-- A string ending in `pat` contains `pat`. -/
theorem strContains_append_right (a pat : String) :
    strContains (a ++ pat) pat = true := by
  apply strContains_of_parts (a ++ pat) a pat ""
  rw [str_append_empty]

theorem str_append_ne_empty_left (a b : String) (ha : a ≠ "") :
    a ++ b ≠ "" := by
  intro h
  rw [str_eq_empty_iff, str_data_append, List.append_eq_nil] at h
  exact ha ((str_eq_empty_iff a).mpr h.1)

/-! ### Numeric formatting: the model of Python's `:.2f` -/

/-- Round a rational to the nearest integer, ties to even (the rounding used
by Python's fixed-point float formatting). -/
def roundHE (x : Rat) : Int :=
  let f : Int := ⌊x⌋
  let r : Rat := x - (f : Rat)
  if r < 1 / 2 then f
  else if 1 / 2 < r then f + 1
  else if f % 2 = 0 then f else f + 1

/-- Render `n` hundredths as a fixed-point numeral with two decimals. -/
def fmt2OfInt (n : Int) : String :=
  let sign : String := if n < 0 then "-" else ""
  let m : Nat := n.natAbs
  let ip : Nat := m / 100
  let fp : Nat := m % 100
  sign ++ toString ip ++ "." ++ (if fp < 10 then "0" else "") ++ toString fp

/-- Model of the Python format expression producing two decimal places:
round the value to hundredths (ties to even) and print it.  (The sign that
IEEE floats give a negative value rounding to -0.00 is not modelled.) -/
def fmt2 (q : Rat) : String := fmt2OfInt (roundHE (q * 100))

theorem roundHE_down (x : Rat) (f : Int) (h1 : (f : Rat) ≤ x)
    (h2 : x < (f : Rat) + 1) (h3 : x - (f : Rat) < 1 / 2) : roundHE x = f := by
  have hf : ⌊x⌋ = f := by
    rw [Int.floor_eq_iff]
    exact ⟨h1, h2⟩
  simp only [roundHE, hf]
  rw [if_pos h3]

theorem roundHE_up (x : Rat) (f : Int) (h1 : (f : Rat) ≤ x)
    (h2 : x < (f : Rat) + 1) (h3 : 1 / 2 < x - (f : Rat)) :
    roundHE x = f + 1 := by
  have hf : ⌊x⌋ = f := by
    rw [Int.floor_eq_iff]
    exact ⟨h1, h2⟩
  have h4 : ¬ (x - (f : Rat) < 1 / 2) := by linarith
  simp only [roundHE, hf]
  rw [if_neg h4, if_pos h3]

theorem fmt2_eq_of_round (q : Rat) (n : Int) (h : roundHE (q * 100) = n) :
    fmt2 q = fmt2OfInt n := by
  simp only [fmt2, h]

/-! ### Data model: the quote dictionaries (`IndexQuote`) -/

/-- A quote dictionary as produced and consumed by the pipeline.  Every
field is optional: `none` models a missing key or a Python `None` value
(the two are indistinguishable to the `d.get(...)` accesses, and the
dictionaries built by `fetch_index_daily` always carry the `symbol`,
`close`, `prev_close` keys, possibly with value `None`). -/
structure Quote where
  symbol : Option String
  close : Option Rat
  prev_close : Option Rat
  high : Option Rat
  low : Option Rat
  error : Option String

/-! ### `app/data_fetcher.py` -/

/-- Outcome of the single call the gateway makes to the external provider
(`yf.Ticker(...).history(...)`): either the call raises (with some message
text), or it returns a list of daily rows, each row's `Close` entry being a
number or `None`/missing.  An absent or empty frame is `rows []`. -/
inductive ProviderResult
  | raise (msg : String)
  | rows (rs : List (Option Rat))

/-- Embedding of `fetch_index_daily` from `app/data_fetcher.py`, with the
provider's behaviour passed in as a parameter.  The function is total: the
`except` branch of the source is the `.raise` case, so no exception crosses
the boundary. -/
def fetch_index_daily (ticker : String) : ProviderResult → Quote
  | ProviderResult.raise msg =>
    { symbol := some ticker, close := none, prev_close := none,
      high := none, low := none,
      error := some ("Exception fetching data: " ++ msg) }
  | ProviderResult.rows rs =>
    match rs.getLast? with
    | none =>
      { symbol := some ticker, close := none, prev_close := none,
        high := none, low := none,
        error := some ("No historical data returned") }
    | some last =>
      let prev := if 2 ≤ rs.length then rs.getD (rs.length - 2) none else last
      { symbol := some ticker, close := last, prev_close := prev,
        high := none, low := none, error := none }

/-! ### `app/summarizer.py` -/

/-- The fixed SEBI-style disclaimer (`SEBI_DISCLAIMER` in the source; the
three adjacent Python string literals concatenate to this text). -/
def SEBI_DISCLAIMER : String :=
  "This content is for educational purposes only. Markets are subject to risk. Please consult your financial advisor before taking any investment decisions."

/-- Python truthiness of an optional number: `None` and `0` are falsy. -/
def pyTruthy : Option Rat → Bool
  | none => false
  | some x => if x = 0 then false else true

/-- The percentage-change computation of `_idx_summary`:
`pct = ((close - prev) / prev) * 100 if prev else 0`.  When `prev` is
truthy but `close` is `None`, the subtraction raises (`.error`), which the
enclosing handler catches. -/
def _pctStep (close prev : Option Rat) : Except Unit Rat :=
  if pyTruthy prev then
    match close, prev with
    | some c, some p => Except.ok ((c - p) / p * 100)
    | _, _ => Except.error ()
  else Except.ok 0

/-- The value `_pctStep` yields on two present numbers (helper). -/
def pctVal (c p : Rat) : Rat := if p = 0 then 0 else (c - p) / p * 100

/-- Formatting an optional number with `:.2f`: formatting `None` raises. -/
def fmtOpt : Option Rat → Except Unit String
  | none => Except.error ()
  | some v => Except.ok (fmt2 v)

/-- The body of `_idx_summary`'s `try` block: compute the percent change,
then format `close`, `low` and `high` into the sentence; any failure is an
`.error` that the handler below turns into the fallback sentence. -/
def idxSummaryCore (d : Quote) : Except Unit String :=
  match _pctStep d.close d.prev_close with
  | Except.error e => Except.error e
  | Except.ok pct =>
    match fmtOpt d.close with
    | Except.error e => Except.error e
    | Except.ok closeS =>
      match fmtOpt d.low with
      | Except.error e => Except.error e
      | Except.ok lowS =>
        match fmtOpt d.high with
        | Except.error e => Except.error e
        | Except.ok highS =>
          Except.ok (d.symbol.getD "Index" ++ " closed at " ++ closeS
            ++ ", up " ++ fmt2 pct ++ "%. Day range was " ++ lowS ++ "–"
            ++ highS ++ ".")

/-- Embedding of `_idx_summary`: the `try` body with its `except` handler. -/
def _idx_summary (d : Quote) : String :=
  match idxSummaryCore d with
  | Except.ok s => s
  | Except.error _ => "Index data was mixed with limited clarity."

/-- Embedding of `_safe_join`: an absent or empty list is falsy. -/
def _safe_join : Option (List String) → String
  | some (x :: xs) => String.intercalate ", " (x :: xs)
  | some [] => "data not available"
  | none => "data not available"

/-- The sector dictionary fields the fallback composer reads via `.get`. -/
structure Sectors where
  gainers : Option (List String)
  losers : Option (List String)

/-- Hand-authored context dictionaries (global cues, derivatives, macro).
They are only interpolated into the generative prompt, which is not
modelled, so their representation is an opaque association list. -/
def ContextBundle := List (String × String)

/-- Embedding of `_fallback_premarket`. -/
def _fallback_premarket (nifty : Quote) : String :=
  "Indian markets are set to open today amid mixed global cues. "
    ++ _idx_summary nifty ++ " "
    ++ "Derivatives positioning suggests a cautious start. "
    ++ "Traders should watch global markets, crude oil, and key news events. "
    ++ SEBI_DISCLAIMER

/-- Embedding of `_fallback_postmarket`. -/
def _fallback_postmarket (nifty : Quote) (sectors : Sectors) : String :=
  "Indian markets ended the session on a mixed note. "
    ++ _idx_summary nifty ++ " "
    ++ "Sectoral action was seen in " ++ _safe_join sectors.gainers ++ ", "
    ++ "while pressure was visible in " ++ _safe_join sectors.losers ++ ". "
    ++ SEBI_DISCLAIMER

/-- Embedding of `_fallback_weekly`. -/
def _fallback_weekly : String :=
  "Indian equity markets concluded the week with selective participation. "
    ++ "Index trends remained range-bound as global and domestic factors influenced sentiment. "
    ++ "Sector rotation and volatility trends will be key to watch next week. "
    ++ SEBI_DISCLAIMER

/-- Python's `str.strip()` on the default whitespace set. -/
def pyStrip (s : String) : String :=
  String.mk (((s.data.dropWhile Char.isWhitespace).reverse.dropWhile
    Char.isWhitespace).reverse)

/-- Outcome of the one `chat.completions.create(...)` call a composer
makes: either the whole `try` body evaluates `r.choices[0].message.content`
to a string (`ok text`), or anything in it raises (`raise`) — a missing
choice, a `None` content, a network failure. -/
inductive GenResult
  | ok (text : String)
  | raise

/-- Embedding of `create_premarket_script`.  `client = none` is the
unconfigured state (`OPENAI_API_KEY` unset); otherwise the parameter gives
the outcome of the service call.  On success the source returns the
stripped response text unchanged. -/
def create_premarket_script (client : Option GenResult) (nifty : Quote)
    (global_cues : ContextBundle) (derivatives : ContextBundle)
    (news : Option String) : String :=
  match client with
  | none => _fallback_premarket nifty
  | some (GenResult.ok text) => pyStrip text
  | some GenResult.raise => _fallback_premarket nifty

/-- Embedding of `create_postmarket_script`. -/
def create_postmarket_script (client : Option GenResult) (nifty : Quote)
    (sectors : Sectors) (derivatives : ContextBundle)
    (global_ref : Option String) : String :=
  match client with
  | none => _fallback_postmarket nifty sectors
  | some (GenResult.ok text) => pyStrip text
  | some GenResult.raise => _fallback_postmarket nifty sectors

/-- Embedding of `create_weekly_script` (the source's third argument is
named after the macro-drivers dictionary; that word is a keyword here, so
the binder is `macroCtx`). -/
def create_weekly_script (client : Option GenResult) (weekly_index : Quote)
    (sectors : Sectors) (macroCtx : ContextBundle)
    (derivatives : ContextBundle) : String :=
  match client with
  | none => _fallback_weekly
  | some (GenResult.ok text) => pyStrip text
  | some GenResult.raise => _fallback_weekly

/-! ### `app/runner.py` -/

/-- The report kind `main` selects from the current IST time. -/
inductive Task
  | premarket
  | postmarket
  | weekly
  | none
deriving DecidableEq

/-- The scheduling decision of `main` in `app/runner.py` (the range-based
variant present under `src/`): Saturday (weekday 5) → nothing; Sunday
(weekday 6) → weekly; otherwise hour < 12 → premarket, else postmarket. -/
def schedule (weekday hour : Nat) : Task :=
  if weekday = 5 then Task.none
  else if weekday = 6 then Task.weekly
  else if hour < 12 then Task.premarket
  else Task.postmarket

/-- The external collaborators each selected task invokes, in the order the
corresponding `run_*` body calls them; `Task.none` makes `main` return at
once, touching none of them. -/
def collaboratorCalls : Task → List String
  | Task.premarket =>
    ["fetch_index_daily", "create_premarket_script", "text_to_speech",
     "create_chart", "create_video", "upload_video"]
  | Task.postmarket =>
    ["fetch_index_daily", "create_postmarket_script", "text_to_speech",
     "create_chart", "create_video", "upload_video"]
  | Task.weekly =>
    ["fetch_index_daily", "create_weekly_script", "text_to_speech",
     "create_chart", "create_video", "upload_video"]
  | Task.none => []

/-- Modelled from the spec: the exact-hour-match scheduling variant is an
alternate entry point of this repository that is not among the files under
`src/`; per the spec it runs a task only on an exact hour match — 8 for
premarket, 18 for postmarket, 10 on Sunday for weekly — and otherwise
yields nothing. -/
def scheduleExactHour (weekday hour : Nat) : Task :=
  if weekday = 5 then Task.none
  else if weekday = 6 then (if hour = 10 then Task.weekly else Task.none)
  else if hour = 8 then Task.premarket
  else if hour = 18 then Task.postmarket
  else Task.none

/-! ### Helper lemmas about the embedded functions -/

theorem pctStep_some (c p : Rat) :
    _pctStep (some c) (some p) = Except.ok (pctVal c p) := by
  by_cases hp : p = 0 <;> simp [_pctStep, pyTruthy, pctVal, hp]

theorem pctStep_same (x : Rat) : _pctStep (some x) (some x) = Except.ok 0 := by
  rw [pctStep_some]
  by_cases hx : x = 0 <;> simp [pctVal, hx]

/-- With all four numeric fields present, `_idx_summary` takes the
formatted branch. -/
theorem idxSummary_formatted (d : Quote) (c p hi lo : Rat)
    (hc : d.close = some c) (hp : d.prev_close = some p)
    (hh : d.high = some hi) (hl : d.low = some lo) :
    _idx_summary d = d.symbol.getD "Index" ++ " closed at " ++ fmt2 c
      ++ ", up " ++ fmt2 (pctVal c p) ++ "%. Day range was " ++ fmt2 lo
      ++ "–" ++ fmt2 hi ++ "." := by
  simp [_idx_summary, idxSummaryCore, hc, hp, hh, hl, pctStep_some, fmtOpt]

/-- A quote without a `low` field makes the `try` body of `_idx_summary`
raise, whatever the other fields hold. -/
theorem idxSummaryCore_error_of_low (d : Quote) (h : d.low = none) :
    idxSummaryCore d = Except.error () := by
  cases h1 : _pctStep d.close d.prev_close with
  | error e => cases e; simp [idxSummaryCore, h1]
  | ok pct =>
    cases h2 : fmtOpt d.close with
    | error e => cases e; simp [idxSummaryCore, h1, h2]
    | ok closeS =>
      unfold idxSummaryCore
      rw [h1, h2, h]
      rfl

theorem idxSummary_fallback_of_low (d : Quote) (h : d.low = none) :
    _idx_summary d = "Index data was mixed with limited clarity." := by
  rw [_idx_summary, idxSummaryCore_error_of_low d h]

/-- Quotes built by the gateway never carry `high` or `low`. -/
theorem fetch_high_low_none (t : String) (p : ProviderResult) :
    (fetch_index_daily t p).high = none ∧
    (fetch_index_daily t p).low = none := by
  cases p with
  | raise msg => exact ⟨rfl, rfl⟩
  | rows rs =>
    cases h : rs.getLast? with
    | none => simp [fetch_index_daily, h]
    | some last => simp [fetch_index_daily, h]

/-! ### The claims -/

/-- C3: for every quote whose `prev_close` is zero or absent, the
percentage-change computation inside `_idx_summary` raises nothing (in
particular no division error) and yields 0: a falsy `prev` takes the
guarded branch `... if prev else 0`. -/
theorem pct_zero_on_falsy_prev (d : Quote)
    (h : d.prev_close = none ∨ d.prev_close = some 0) :
    _pctStep d.close d.prev_close = Except.ok 0 := by
  rcases h with h | h <;> rw [h] <;> simp [_pctStep, pyTruthy]

/-- Witness for C3 at a concrete quote with `prev_close = 0`. -/
theorem pct_zero_on_falsy_prev_witness :
    _pctStep (Quote.mk none (some 22500) (some 0) none none none).close
      (Quote.mk none (some 22500) (some 0) none none none).prev_close
      = Except.ok 0 :=
  pct_zero_on_falsy_prev (Quote.mk none (some 22500) (some 0) none none none)
    (Or.inr rfl)

/-- C4: `fetch_index_daily` is a total function of the ticker and the
provider's behaviour (the source's `except` arm is the `.raise` case, so no
exception crosses the boundary), and on both failure paths — the provider
raising, or returning zero history rows — the quote has `close` and
`prev_close` both absent and a non-empty error string. -/
theorem fetch_error_paths (t msg : String) :
    ((fetch_index_daily t (ProviderResult.raise msg)).close = none ∧
     (fetch_index_daily t (ProviderResult.raise msg)).prev_close = none ∧
     ∃ s, (fetch_index_daily t (ProviderResult.raise msg)).error = some s ∧
       s ≠ "") ∧
    ((fetch_index_daily t (ProviderResult.rows [])).close = none ∧
     (fetch_index_daily t (ProviderResult.rows [])).prev_close = none ∧
     ∃ s, (fetch_index_daily t (ProviderResult.rows [])).error = some s ∧
       s ≠ "") := by
  refine ⟨⟨rfl, rfl, _, rfl, ?_⟩, ⟨rfl, rfl, _, rfl, ?_⟩⟩
  · exact str_append_ne_empty_left ("Exception fetching data: ") msg (by decide)
  · decide

/-- C5: a history of exactly one row gives a quote whose `prev_close`
equals its `close` (the code falls back to the last row), and the derived
percentage change of two equal present values is 0. -/
theorem fetch_single_row_prev_eq_close (t : String) (c : Option Rat) :
    (fetch_index_daily t (ProviderResult.rows [c])).prev_close
      = (fetch_index_daily t (ProviderResult.rows [c])).close ∧
    ∀ x : Rat, _pctStep (some x) (some x) = Except.ok 0 := by
  exact ⟨by simp [fetch_index_daily], fun x => pctStep_same x⟩

/-- C6: the scheduling decision of `main` is a total function of
(weekday, hour): on every pair it selects exactly one of the four tasks
(totality of `schedule`; the four constructors are mutually distinct), and
Saturday always selects `none`, on which `main` returns before invoking any
collaborator. -/
theorem schedule_total_and_saturday (w h : Nat) (hw : w ≤ 6) (hh : h ≤ 23) :
    (schedule w h = Task.premarket ∨ schedule w h = Task.postmarket ∨
      schedule w h = Task.weekly ∨ schedule w h = Task.none) ∧
    (w = 5 → schedule w h = Task.none ∧
      collaboratorCalls (schedule w h) = []) := by
  constructor
  · cases hs : schedule w h
    · exact Or.inl rfl
    · exact Or.inr (Or.inl rfl)
    · exact Or.inr (Or.inr (Or.inl rfl))
    · exact Or.inr (Or.inr (Or.inr rfl))
  · rintro rfl
    simp [schedule, collaboratorCalls]

/-- Witness for C6 at Saturday (weekday 5), hour 0. -/
theorem schedule_total_and_saturday_witness :
    (schedule 5 0 = Task.premarket ∨ schedule 5 0 = Task.postmarket ∨
      schedule 5 0 = Task.weekly ∨ schedule 5 0 = Task.none) ∧
    (5 = 5 → schedule 5 0 = Task.none ∧
      collaboratorCalls (schedule 5 0) = []) :=
  schedule_total_and_saturday 5 0 (by decide) (by decide)

/-- C7: under the exact-hour-match scheduling variant (modelled from the
spec; that entry point is not among the files under `src/`), Sunday at
hour 10 selects the weekly task and Sunday at hour 11 selects none. -/
theorem exact_variant_sunday_hours :
    scheduleExactHour 6 10 = Task.weekly ∧
    scheduleExactHour 6 11 = Task.none :=
  ⟨rfl, rfl⟩

/-- C1 counterexample: with the generative service configured and
returning a response without the disclaimer, `create_premarket_script`
returns that response as-is, so the script does not contain the SEBI
disclaimer — the claim fails on the generative path. -/
theorem ai_script_without_disclaimer :
    strContains
      (create_premarket_script (some (GenResult.ok "Markets were calm today."))
        (Quote.mk none none none none none none) [] [] none)
      SEBI_DISCLAIMER = false := by
  decide

/-- C1 amended: every script produced through the fallback templates —
that is, whenever the generative client is unconfigured or its call raises
— contains the SEBI disclaimer verbatim, for all three composers; a
successful generative response is returned as-is and need not contain it. -/
theorem fallback_scripts_contain_disclaimer (client : Option GenResult)
    (hcl : client = none ∨ client = some GenResult.raise)
    (nifty w : Quote) (g d m : ContextBundle) (news gref : Option String)
    (sec : Sectors) :
    strContains (create_premarket_script client nifty g d news)
      SEBI_DISCLAIMER = true ∧
    strContains (create_postmarket_script client nifty sec d gref)
      SEBI_DISCLAIMER = true ∧
    strContains (create_weekly_script client w sec m d)
      SEBI_DISCLAIMER = true := by
  have hpre : strContains (_fallback_premarket nifty) SEBI_DISCLAIMER = true :=
    strContains_append_right _ _
  have hpost : strContains (_fallback_postmarket nifty sec)
      SEBI_DISCLAIMER = true :=
    strContains_append_right _ _
  have hweek : strContains _fallback_weekly SEBI_DISCLAIMER = true :=
    strContains_append_right _ _
  rcases hcl with hcl | hcl <;> rw [hcl] <;>
    exact ⟨hpre, hpost, hweek⟩

/-- Witness for the amended C1: the unconfigured client at concrete
inputs. -/
theorem fallback_scripts_contain_disclaimer_witness :
    strContains
      (create_premarket_script none (Quote.mk none none none none none none)
        [] [] none) SEBI_DISCLAIMER = true ∧
    strContains
      (create_postmarket_script none (Quote.mk none none none none none none)
        (Sectors.mk none none) [] none) SEBI_DISCLAIMER = true ∧
    strContains
      (create_weekly_script none (Quote.mk none none none none none none)
        (Sectors.mk none none) [] []) SEBI_DISCLAIMER = true :=
  fallback_scripts_contain_disclaimer none (Or.inl rfl)
    (Quote.mk none none none none none none)
    (Quote.mk none none none none none none) [] [] [] none none
    (Sectors.mk none none)

/-- C2 counterexample: with the service configured and returning an empty
(or whitespace-only) response, `create_premarket_script` returns the
stripped response unchanged — the empty string — so the claim that every
result is non-empty fails on the generative path. -/
theorem ai_empty_script :
    create_premarket_script (some (GenResult.ok ""))
      (Quote.mk none none none none none none) [] [] none = "" :=
  rfl

/-- C2 amended: the three composers are total functions (the embedding of
each is a Lean function, mirroring that every raising call stands inside a
`try` whose handler returns the fallback), and whenever the client is
unconfigured or the service call raises, each returns a non-empty fallback
string; a successful response is returned stripped and may be empty. -/
theorem fallback_scripts_nonempty (client : Option GenResult)
    (hcl : client = none ∨ client = some GenResult.raise)
    (nifty w : Quote) (g d m : ContextBundle) (news gref : Option String)
    (sec : Sectors) :
    create_premarket_script client nifty g d news ≠ "" ∧
    create_postmarket_script client nifty sec d gref ≠ "" ∧
    create_weekly_script client w sec m d ≠ "" := by
  have hpre : _fallback_premarket nifty ≠ "" :=
    str_append_ne_empty_left _ _ (str_append_ne_empty_left _ _
      (str_append_ne_empty_left _ _ (str_append_ne_empty_left _ _
        (str_append_ne_empty_left _ _ (by decide)))))
  have hpost : _fallback_postmarket nifty sec ≠ "" :=
    str_append_ne_empty_left _ _ (str_append_ne_empty_left _ _
      (str_append_ne_empty_left _ _ (str_append_ne_empty_left _ _
        (str_append_ne_empty_left _ _ (str_append_ne_empty_left _ _
          (str_append_ne_empty_left _ _ (str_append_ne_empty_left _ _
            (str_append_ne_empty_left _ _ (by decide)))))))))
  have hweek : _fallback_weekly ≠ "" := by decide
  rcases hcl with hcl | hcl <;> rw [hcl] <;>
    exact ⟨hpre, hpost, hweek⟩

/-- Witness for the amended C2: the unconfigured client at concrete
inputs. -/
theorem fallback_scripts_nonempty_witness :
    create_premarket_script none (Quote.mk none none none none none none)
      [] [] none ≠ "" ∧
    create_postmarket_script none (Quote.mk none none none none none none)
      (Sectors.mk none none) [] none ≠ "" ∧
    create_weekly_script none (Quote.mk none none none none none none)
      (Sectors.mk none none) [] [] ≠ "" :=
  fallback_scripts_nonempty none (Or.inl rfl)
    (Quote.mk none none none none none none)
    (Quote.mk none none none none none none) [] [] [] none none
    (Sectors.mk none none)

/-- C8 counterexample: on the quote of the claim — `close` 22500,
`prev_close` 22380 and nothing else — `_idx_summary` returns the fixed
fallback sentence (formatting the absent day range raises inside the
`try`), so its output reports no percentage at all. -/
theorem idx_summary_missing_range_fallback :
    _idx_summary (Quote.mk none (some 22500) (some 22380) none none none)
      = "Index data was mixed with limited clarity." ∧
    strContains
      (_idx_summary (Quote.mk none (some 22500) (some 22380) none none none))
      "0.54" = false := by
  have h := idxSummary_fallback_of_low
    (Quote.mk none (some 22500) (some 22380) none none none) rfl
  exact ⟨h, by rw [h]; decide⟩

/-- C8 amended: on the quote with `close` 22500, `prev_close` 22380 and a
present day range (the module's own standalone-test quote, high 22620 and
low 22310), the summary sentence carries the percent change
(22500 − 22380) / 22380 · 100 ≈ 0.536 rounded to two decimals, i.e. it
contains the substring rendering 0.54%. -/
theorem idx_summary_example_rounded :
    _idx_summary (Quote.mk (some "NIFTY 50") (some 22500) (some 22380)
      (some 22620) (some 22310) none)
      = "NIFTY 50 closed at 22500.00, up 0.54%. Day range was 22310.00–22620.00." ∧
    strContains
      (_idx_summary (Quote.mk (some "NIFTY 50") (some 22500) (some 22380)
        (some 22620) (some 22310) none)) "up 0.54%" = true := by
  have hc : fmt2 (22500 : Rat) = "22500.00" := by
    rw [fmt2_eq_of_round _ 2250000
      (roundHE_down _ 2250000 (by norm_num) (by norm_num) (by norm_num))]
    decide
  have hlo : fmt2 (22310 : Rat) = "22310.00" := by
    rw [fmt2_eq_of_round _ 2231000
      (roundHE_down _ 2231000 (by norm_num) (by norm_num) (by norm_num))]
    decide
  have hhi : fmt2 (22620 : Rat) = "22620.00" := by
    rw [fmt2_eq_of_round _ 2262000
      (roundHE_down _ 2262000 (by norm_num) (by norm_num) (by norm_num))]
    decide
  have hpv : fmt2 (pctVal 22500 22380) = "0.54" := by
    have hv : pctVal 22500 22380 = ((22500 : Rat) - 22380) / 22380 * 100 := by
      unfold pctVal
      rw [if_neg (by norm_num : ¬((22380 : Rat) = 0))]
    rw [hv, fmt2_eq_of_round _ 54
      (roundHE_up _ 53 (by norm_num) (by norm_num) (by norm_num))]
    decide
  have hs := idxSummary_formatted
    (Quote.mk (some "NIFTY 50") (some 22500) (some 22380) (some 22620)
      (some 22310) none) 22500 22380 22620 22310 rfl rfl rfl rfl
  rw [hc, hlo, hhi, hpv] at hs
  exact ⟨by rw [hs]; decide, by rw [hs]; decide⟩

/-- C9: every quote the gateway produces lacks the `high`/`low` fields, so
`_idx_summary` always falls back to the fixed sentence on it (the range
formatting raises inside the `try` and is caught), and the premarket
fallback script built from live gateway data is one fixed string carrying
neither the close price nor a percent change. -/
theorem gateway_quote_summary_fixed (t : String) (p : ProviderResult) :
    _idx_summary (fetch_index_daily t p)
      = "Index data was mixed with limited clarity." ∧
    _fallback_premarket (fetch_index_daily t p)
      = "Indian markets are set to open today amid mixed global cues. Index data was mixed with limited clarity. Derivatives positioning suggests a cautious start. Traders should watch global markets, crude oil, and key news events. This content is for educational purposes only. Markets are subject to risk. Please consult your financial advisor before taking any investment decisions." := by
  have h := idxSummary_fallback_of_low (fetch_index_daily t p)
    (fetch_high_low_none t p).2
  refine ⟨h, ?_⟩
  unfold _fallback_premarket
  rw [h]
  decide

/-- C10: whenever `_idx_summary` produces its formatted sentence (all four
numeric fields present), the sentence contains the word "up" — the template
hard-codes it — regardless of the sign of the percent change. -/
theorem idx_summary_always_up (d : Quote) (c p hi lo : Rat)
    (hc : d.close = some c) (hp : d.prev_close = some p)
    (hh : d.high = some hi) (hl : d.low = some lo) :
    strContains (_idx_summary d) "up " = true := by
  rw [idxSummary_formatted d c p hi lo hc hp hh hl]
  apply strContains_of_parts _
    (d.symbol.getD "Index" ++ " closed at " ++ fmt2 c ++ ", ") "up "
    (fmt2 (pctVal c p) ++ "%. Day range was " ++ fmt2 lo ++ "–"
      ++ fmt2 hi ++ ".")
  have h1 : (", up " : String) = ", " ++ "up " := by decide
  rw [h1]
  simp only [str_append_assoc]

/-- Witness for C10 at a falling quote (close 22300 below prev_close
22380): the sentence still reads "up", followed by a negative
percentage. -/
theorem idx_summary_always_up_witness :
    strContains
      (_idx_summary (Quote.mk (some "NIFTY 50") (some 22300) (some 22380)
        (some 22400) (some 22250) none)) "up " = true :=
  idx_summary_always_up
    (Quote.mk (some "NIFTY 50") (some 22300) (some 22380) (some 22400)
      (some 22250) none) 22300 22380 22400 22250 rfl rfl rfl rfl

end MarketBot
